import Mathlib

/-!
Verification of the answer-key extraction pipeline of `src/extractor.py`
(open-mcr).  The module under scrutiny is the per-sheet orchestration glue
`extract_answer_key_from_image` and its GUI wrapper
`extract_answer_key_from_image_gui`.  The collaborators it calls
(`image_utils`, `corner_finding`, `grid_reading`, `grid_info`,
`data_exporting`) are external to the given sources and are modelled from the
spec as an abstract environment of deterministic, synchronous functions whose
only observable effect is possibly raising an exception; diagnostic
(`save_path`) capture is a write-only side channel.
-/

namespace OpenMCR

/-- Filesystem path, modelled as its list of segments (mirrors the uses of
`pathlib.Path` in `extractor.py`: the `/` join, `.name` and `.stem`). -/
structure FilePath where
  segments : List String
deriving DecidableEq, Repr

/-- `p / s` of `pathlib`: append one segment. -/
def FilePath.child (p : FilePath) (s : String) : FilePath :=
  ⟨p.segments ++ [s]⟩

/-- `pathlib.Path.name`: the final path segment. -/
def FilePath.name (p : FilePath) : String :=
  p.segments.getLast?.getD ""

/-- `pathlib.Path.stem`: the final segment with its last extension removed
(the leading-dot special case of `pathlib` is irrelevant to every claim and
is not modelled). -/
def FilePath.stem (p : FilePath) : String :=
  let cs := p.name.toList
  if cs.contains '.' then
    ⟨((cs.reverse.dropWhile (fun c => c ≠ '.')).drop 1).reverse⟩
  else p.name

/-- Timestamps (`datetime` values are only threaded through to naming). -/
abbrev Timestamp := Nat

/-- Python exception values reaching `extractor.py`.  The constructor
`cornerFinding` stands for `corner_finding.CornerFindingError` (the class the
code catches specially, of which `CornerNotFoundError` is an instance);
`other` stands for every other `Exception`. -/
inductive Exc where
  | cornerFinding (msg : String)
  | other (msg : String)
deriving DecidableEq, Repr

/-- `str(e)` on an exception. -/
def Exc.message : Exc → String
  | .cornerFinding m => m
  | .other m => m

/-- `grid_info.Field` / `RealOrVirtualField`: the two members `extractor.py`
uses by name, plus a stand-in for any further field a form variant may
configure. -/
inductive Field where
  | TEST_FORM_CODE
  | IMAGE_FILE
  | OTHER (n : Nat)
deriving DecidableEq, Repr

/-- Modelled from the spec: a `grid_info` field/question descriptor
(BubbleGroup descriptor - row span, column span, per-choice offsets).  It is
opaque to the pipeline glue, which only hands it to `grid_reading`. -/
structure GroupInfo where
  idx : Nat
deriving DecidableEq, Repr

/-- Modelled from the spec: `grid_info.FormVariant` - the immutable layout
configuration: the non-question fields (a mapping that may hold `None` for
an unconfigured field), the question descriptors, and the question count. -/
structure FormVariant where
  fields : List (Field × Option GroupInfo)
  questions : List GroupInfo
  num_questions : Nat
deriving DecidableEq, Repr

/-- Modelled from the spec: `grid_info.GRID_HORIZONTAL_CELLS` (a fixed grid
dimension constant; its exact value is irrelevant to every claim). -/
def GRID_HORIZONTAL_CELLS : Nat := 36

/-- Modelled from the spec: `grid_info.GRID_VERTICAL_CELLS`. -/
def GRID_VERTICAL_CELLS : Nat := 48

/-- Modelled from the spec: `data_exporting.format_timestamp_for_file` - a
pure rendering of the optional timestamp used in file names. -/
def format_timestamp_for_file : Option Timestamp → String
  | none => ""
  | some t => toString t ++ "__"

/-- Modelled from the spec: `data_exporting.OutputSheet` - the structured
record of field values plus ordered question answers that is handed to
persistence.  `rows` holds, per added sheet, the field data and the answer
strings. -/
structure OutputSheet where
  field_columns : List Field
  num_questions : Nat
  rows : List (List (Field × String) × List String)
deriving DecidableEq, Repr

/-- `OutputSheet(...)` constructor: the chosen field columns, the question
count, and no data rows yet. -/
def OutputSheet.new (cols : List Field) (n : Nat) : OutputSheet :=
  ⟨cols, n, []⟩

/-- Modelled from the spec: `OutputSheet.add` appends one record of field
values and ordered question answers. -/
def OutputSheet.add (s : OutputSheet) (field_data : List (Field × String))
    (answers : List String) : OutputSheet :=
  { s with rows := s.rows ++ [(field_data, answers)] }

/-- Modelled from the spec: `OutputSheet.clean_up` replaces every empty
answer string with the given replacement (the empty-answer display policy). -/
def OutputSheet.clean_up (s : OutputSheet) (replace_empty_with : String) :
    OutputSheet :=
  { s with rows := s.rows.map (fun r =>
      (r.1, r.2.map (fun a => if a = "" then replace_empty_with else a))) }

/-- Sequential effectful map over a list in the `Except Exc` monad (the shape
of the list comprehensions in `extractor.py`: each element is computed in
order and the first exception aborts the whole comprehension). -/
def mapExc {α β : Type} (f : α → Except Exc β) : List α → Except Exc (List β)
  | [] => .ok []
  | a :: as =>
    match f a with
    | .error e => .error e
    | .ok b =>
      match mapExc f as with
      | .error e => .error e
      | .ok bs => .ok (b :: bs)

/-- Python list indexing `l[i]`: raises `IndexError` when out of range. -/
def pyIndex {α : Type} (l : List α) (i : Nat) : Except Exc α :=
  match l.get? i with
  | some a => .ok a
  | none => .error (.other "IndexError: list index out of range")

/-- Python dict membership/lookup on the association list that models
`field_fill_percents` (keys are unique, coming from a dict comprehension). -/
def lookupField (k : Field) : List (Field × List Rat) → Option (List Rat)
  | [] => none
  | kv :: rest => if kv.1 = k then some kv.2 else lookupField k rest

/-- Modelled from the spec: the external collaborators called by
`extract_answer_key_from_image`, bundled as one environment of deterministic
functions (the spec: single-sheet processing is synchronous and
side-effect-free apart from optional diagnostic capture).  Each function's
only effect is possibly raising an exception, so each returns in
`Except Exc`.  The `Option FilePath` arguments are the `save_path` diagnostic
sinks exactly where `extractor.py` passes them.  `get_all_fill_percents`
merges the collaborator composition
`grid_reading.get_group_from_info(info, grid).get_all_fill_percents()`
into one call, since the intermediate group object is not observable in
`extractor.py`. -/
structure Env (Image Corners Grid : Type) where
  get_image : FilePath → Option FilePath → Except Exc Image
  prepare_scan_for_processing : Image → Option FilePath → Except Exc Image
  find_corner_marks : Image → Option FilePath → Except Exc Corners
  dilate : Image → Option FilePath → Except Exc Image
  mkGrid : Corners → Nat → Nat → Image → Option FilePath → Except Exc Grid
  get_all_fill_percents : GroupInfo → Grid → Except Exc (List Rat)
  calculate_bubble_fill_threshold :
    List (Field × List Rat) → List (List Rat) → Option FilePath →
    FormVariant → Except Exc Rat
  read_answer_as_string :
    Nat → Grid → Bool → Rat → FormVariant → List Rat → Except Exc String
  read_field_as_string :
    Field → Grid → Rat → FormVariant → List Rat →
    Except Exc (Option String)
  save : OutputSheet → FilePath → String → Bool → Option Timestamp →
    Except Exc FilePath

/-- The dict comprehension of `extractor.py` lines 76-80: fill percents for
every configured (non-`None`) field, in configuration order. -/
def fieldFillPercents {Image Corners Grid : Type} (env : Env Image Corners Grid)
    (grid : Grid) (form_variant : FormVariant) :
    Except Exc (List (Field × List Rat)) :=
  mapExc
    (fun kv =>
      match env.get_all_fill_percents kv.2 grid with
      | .error e => .error e
      | .ok ps => .ok (kv.1, ps))
    (form_variant.fields.filterMap (fun kv => kv.2.map (fun v => (kv.1, v))))

/-- The list comprehension of `extractor.py` lines 81-84: fill percents for
every question, in question order. -/
def answerFillPercents {Image Corners Grid : Type} (env : Env Image Corners Grid)
    (grid : Grid) (form_variant : FormVariant) : Except Exc (List (List Rat)) :=
  mapExc (fun q => env.get_all_fill_percents q grid) form_variant.questions

/-- The list comprehension of `extractor.py` lines 94-99: one decoded answer
string per question index `i` in `range(num_questions)`, each decoded with
the same `threshold` from `answer_fill_percents[i]`. -/
def readAnswers {Image Corners Grid : Type} (env : Env Image Corners Grid)
    (grid : Grid) (multi_answers_as_f : Bool) (threshold : Rat)
    (form_variant : FormVariant) (answer_fill_percents : List (List Rat)) :
    Except Exc (List String) :=
  mapExc
    (fun i =>
      match pyIndex answer_fill_percents i with
      | .error e => .error e
      | .ok afp =>
        env.read_answer_as_string i grid multi_answers_as_f threshold
          form_variant afp)
    (List.range form_variant.num_questions)

/-- Lines 101-106 of `extractor.py`: the form code starts as `""`; when
`TEST_FORM_CODE` is among the measured fields it is decoded with the sheet
threshold, a falsy result (`None` or `""`) collapsing to `""` via `or ""`. -/
def readFormCode {Image Corners Grid : Type} (env : Env Image Corners Grid)
    (grid : Grid) (threshold : Rat) (form_variant : FormVariant)
    (field_fill_percents : List (Field × List Rat)) : Except Exc String :=
  match lookupField Field.TEST_FORM_CODE field_fill_percents with
  | none => .ok ""
  | some fps =>
    match env.read_field_as_string Field.TEST_FORM_CODE grid threshold
        form_variant fps with
    | .error e => .error e
    | .ok r =>
      .ok (match r with
           | none => ""
           | some s => if s = "" then "" else s)

/-- Outcome of the `try` body of `extract_answer_key_from_image`
(lines 50-131): either the inner corner-finding handler fired (printing a
message and returning `None`), or the sheet was decoded, saved and the
success message printed, or an exception escaped to the outer handler. -/
inductive BodyOutcome where
  | cornerFailed (msg : String)
  | saved (output_path : FilePath) (sheet : OutputSheet) (msg : String)
deriving DecidableEq, Repr

/-- The `try` body of `extract_answer_key_from_image`, lines 50-131 of
`extractor.py`, stage by stage in source order.  `debug_path` is the
diagnostic sink computed in lines 39-48. -/
def extract_body {Image Corners Grid : Type} (env : Env Image Corners Grid)
    (image_path output_folder : FilePath)
    (multi_answers_as_f empty_answers_as_g : Bool)
    (form_variant : FormVariant) (files_timestamp : Option Timestamp)
    (debug_path : Option FilePath) : Except Exc BodyOutcome :=
  match env.get_image image_path debug_path with
  | .error e => .error e
  | .ok image =>
    match env.prepare_scan_for_processing image debug_path with
    | .error e => .error e
    | .ok prepared_image =>
      match env.find_corner_marks prepared_image debug_path with
      | .error (.cornerFinding e) =>
        .ok (.cornerFailed
          ("Error finding corners in " ++ image_path.name ++ ": " ++ e))
      | .error e => .error e
      | .ok corners =>
        match env.dilate prepared_image debug_path with
        | .error e => .error e
        | .ok morphed_image =>
          match env.mkGrid corners GRID_HORIZONTAL_CELLS GRID_VERTICAL_CELLS
              morphed_image debug_path with
          | .error e => .error e
          | .ok grid =>
            match fieldFillPercents env grid form_variant with
            | .error e => .error e
            | .ok field_fill_percents =>
              match answerFillPercents env grid form_variant with
              | .error e => .error e
              | .ok answer_fill_percents =>
                match env.calculate_bubble_fill_threshold field_fill_percents
                    answer_fill_percents debug_path form_variant with
                | .error e => .error e
                | .ok threshold =>
                  match readAnswers env grid multi_answers_as_f threshold
                      form_variant answer_fill_percents with
                  | .error e => .error e
                  | .ok answers =>
                    match readFormCode env grid threshold form_variant
                        field_fill_percents with
                    | .error e => .error e
                    | .ok form_code =>
                      let keys_results := OutputSheet.new
                        [Field.TEST_FORM_CODE, Field.IMAGE_FILE]
                        form_variant.num_questions
                      let field_data : List (Field × String) :=
                        [(Field.TEST_FORM_CODE, form_code),
                         (Field.IMAGE_FILE, image_path.name)]
                      let keys_results := keys_results.add field_data answers
                      let keys_results := keys_results.clean_up
                        (if empty_answers_as_g then "G" else "")
                      match env.save keys_results output_folder
                          "extracted_answer_key" false files_timestamp with
                      | .error e => .error e
                      | .ok output_path =>
                        .ok (.saved output_path keys_results
                          ("Answer key extracted from " ++ image_path.name ++
                           " and saved to " ++ output_path.name))

/-- Lines 40-46 of `extractor.py`: the diagnostic artifact directory,
`output_folder / (format_timestamp_for_file(ts) + "debug_extractor") / stem`. -/
def debugPathFor (output_folder : FilePath) (files_timestamp : Option Timestamp)
    (image_path : FilePath) : FilePath :=
  (output_folder.child
    (format_timestamp_for_file files_timestamp ++ "debug_extractor")).child
    image_path.stem

/-- Lines 39-48 of `extractor.py`: the `save_path` handed to collaborators -
the debug directory when debug mode is on, `None` otherwise. -/
def debugPathArg (output_folder : FilePath) (files_timestamp : Option Timestamp)
    (image_path : FilePath) (debug_mode_on : Bool) : Option FilePath :=
  if debug_mode_on then some (debugPathFor output_folder files_timestamp image_path)
  else none

instance {ε α : Type} [DecidableEq ε] [DecidableEq α] :
    DecidableEq (Except ε α) := fun x y =>
  match x, y with
  | .error e, .error e' =>
    if h : e = e' then .isTrue (by rw [h])
    else .isFalse (by intro hc; cases hc; exact h rfl)
  | .error _, .ok _ => .isFalse (by intro hc; cases hc)
  | .ok _, .error _ => .isFalse (by intro hc; cases hc)
  | .ok a, .ok b =>
    if h : a = b then .isTrue (by rw [h])
    else .isFalse (by intro hc; cases hc; exact h rfl)

/-- Observable outcome of one call of `extract_answer_key_from_image`:
the returned value (`Except.error` standing for an uncaught exception,
`Except.ok none` for the `None` failure return, `Except.ok (some p)` for a
successful return of the saved path), the record handed to persistence (if
any), and the messages printed to the console. -/
structure ExtractOutcome where
  result : Except Exc (Option FilePath)
  saved : Option OutputSheet
  log : List String
deriving DecidableEq, Repr

/-- `extract_answer_key_from_image` (lines 14-137 of `extractor.py`): run the
`try` body; a corner-finding failure returns `None` after its printed
message; a saved sheet returns its path; any other exception is printed at
the outer handler, re-raised when `debug_mode_on` and converted to `None`
otherwise. -/
def extract_answer_key_from_image {Image Corners Grid : Type}
    (env : Env Image Corners Grid) (image_path output_folder : FilePath)
    (multi_answers_as_f empty_answers_as_g : Bool)
    (form_variant : FormVariant) (files_timestamp : Option Timestamp)
    (debug_mode_on : Bool) : ExtractOutcome :=
  let debug_path := debugPathArg output_folder files_timestamp image_path
    debug_mode_on
  match extract_body env image_path output_folder multi_answers_as_f
      empty_answers_as_g form_variant files_timestamp debug_path with
  | .ok (.cornerFailed m) => ⟨.ok none, none, [m]⟩
  | .ok (.saved p sheet m) => ⟨.ok (some p), some sheet, [m]⟩
  | .error e =>
    let m := "Error extracting answer key from " ++ image_path.name ++ ": " ++
      e.message
    if debug_mode_on then ⟨.error e, none, [m]⟩ else ⟨.ok none, none, [m]⟩

/-- `extract_answer_key_from_image_gui` (lines 140-181 of `extractor.py`):
reports progress to the optional tracker (`set_status` on a GUI widget, an
external side channel modelled as effect-free) and returns exactly the result
of `extract_answer_key_from_image` on the same arguments. -/
def extract_answer_key_from_image_gui {Image Corners Grid : Type}
    (env : Env Image Corners Grid) (image_path output_folder : FilePath)
    (multi_answers_as_f empty_answers_as_g : Bool)
    (form_variant : FormVariant) (files_timestamp : Option Timestamp)
    (progress_tracker : Option Unit) (debug_mode_on : Bool) : ExtractOutcome :=
  extract_answer_key_from_image env image_path output_folder
    multi_answers_as_f empty_answers_as_g form_variant files_timestamp
    debug_mode_on

lemma mapExc_ok_length {α β : Type} (f : α → Except Exc β) :
    ∀ (l : List α) (l' : List β), mapExc f l = .ok l' → l'.length = l.length := by
  intro l
  induction l with
  | nil =>
    intro l' h
    simp only [mapExc] at h
    cases h
    rfl
  | cons a as ih =>
    intro l' h
    simp only [mapExc] at h
    split at h
    · simp at h
    · split at h
      · simp at h
      · rename_i bs hbs
        cases h
        simp [ih bs hbs]

/-- Inversion of a successful run of the `try` body: every pipeline stage was
invoked, in source order, each consuming the previous stage's output, with
one threshold feeding every decode, and the saved sheet is the assembled
record. -/
lemma extract_body_saved_inv {Image Corners Grid : Type}
    (env : Env Image Corners Grid) (ip of_ : FilePath) (maf eag : Bool)
    (fv : FormVariant) (ts : Option Timestamp) (dbg : Option FilePath)
    (p : FilePath) (sheet : OutputSheet) (m : String)
    (h : extract_body env ip of_ maf eag fv ts dbg = .ok (.saved p sheet m)) :
    ∃ (image prepared : Image) (corners : Corners) (morphed : Image)
      (grid : Grid) (ffp : List (Field × List Rat)) (afp : List (List Rat))
      (threshold : Rat) (answers : List String) (form_code : String),
      env.get_image ip dbg = .ok image ∧
      env.prepare_scan_for_processing image dbg = .ok prepared ∧
      env.find_corner_marks prepared dbg = .ok corners ∧
      env.dilate prepared dbg = .ok morphed ∧
      env.mkGrid corners GRID_HORIZONTAL_CELLS GRID_VERTICAL_CELLS morphed
        dbg = .ok grid ∧
      fieldFillPercents env grid fv = .ok ffp ∧
      answerFillPercents env grid fv = .ok afp ∧
      env.calculate_bubble_fill_threshold ffp afp dbg fv = .ok threshold ∧
      readAnswers env grid maf threshold fv afp = .ok answers ∧
      readFormCode env grid threshold fv ffp = .ok form_code ∧
      sheet = ((OutputSheet.new [Field.TEST_FORM_CODE, Field.IMAGE_FILE]
          fv.num_questions).add
          [(Field.TEST_FORM_CODE, form_code), (Field.IMAGE_FILE, ip.name)]
          answers).clean_up (if eag then "G" else "") ∧
      env.save sheet of_ "extracted_answer_key" false ts = .ok p ∧
      m = "Answer key extracted from " ++ ip.name ++ " and saved to " ++
        p.name := by
  simp only [extract_body] at h
  split at h
  · simp at h
  rename_i image h1
  split at h
  · simp at h
  rename_i prepared h2
  split at h
  · simp at h
  · simp at h
  rename_i corners h3
  split at h
  · simp at h
  rename_i morphed h4
  split at h
  · simp at h
  rename_i grid h5
  split at h
  · simp at h
  rename_i ffp h6
  split at h
  · simp at h
  rename_i afp h7
  split at h
  · simp at h
  rename_i threshold h8
  split at h
  · simp at h
  rename_i answers h9
  split at h
  · simp at h
  rename_i form_code h10
  split at h
  · simp at h
  rename_i output_path h11
  simp only [Except.ok.injEq, BodyOutcome.saved.injEq] at h
  obtain ⟨hp, hsheet, hm⟩ := h
  subst hp
  subst hsheet
  subst hm
  exact ⟨image, prepared, corners, morphed, grid, ffp, afp, threshold,
    answers, form_code, h1, h2, h3, h4, h5, h6, h7, h8, h9, h10, rfl, h11,
    rfl⟩

/-- Inversion of the outer handler: a returned saved path means the `try`
body reached a save, and fully determines the call's observable outcome. -/
lemma extract_ok_some_inv {Image Corners Grid : Type}
    (env : Env Image Corners Grid) (ip of_ : FilePath) (maf eag : Bool)
    (fv : FormVariant) (ts : Option Timestamp) (dm : Bool) (p : FilePath)
    (h : (extract_answer_key_from_image env ip of_ maf eag fv ts dm).result =
      Except.ok (some p)) :
    ∃ sheet m,
      extract_body env ip of_ maf eag fv ts (debugPathArg of_ ts ip dm) =
        .ok (.saved p sheet m) ∧
      extract_answer_key_from_image env ip of_ maf eag fv ts dm =
        ⟨.ok (some p), some sheet, [m]⟩ := by
  simp only [extract_answer_key_from_image] at h
  split at h
  · simp at h
  · rename_i p' sheet m hbody
    simp only at h
    simp only [Except.ok.injEq, Option.some.injEq] at h
    subst h
    exact ⟨sheet, m, hbody, by
      simp only [extract_answer_key_from_image, hbody]⟩
  · rename_i e hbody
    cases dm <;> simp at h

/-- Modelled from the spec: the diagnostic artifact sink is write-only and is
never read back by the collaborators, so each collaborator's returned value
does not depend on the `save_path` argument it is handed. -/
structure IgnoresSavePath {Image Corners Grid : Type}
    (env : Env Image Corners Grid) : Prop where
  get_image_eq : ∀ p d, env.get_image p d = env.get_image p none
  prepare_eq : ∀ i d, env.prepare_scan_for_processing i d =
    env.prepare_scan_for_processing i none
  corners_eq : ∀ i d, env.find_corner_marks i d = env.find_corner_marks i none
  dilate_eq : ∀ i d, env.dilate i d = env.dilate i none
  grid_eq : ∀ c hc vc i d, env.mkGrid c hc vc i d = env.mkGrid c hc vc i none
  threshold_eq : ∀ ffp afp d fv,
    env.calculate_bubble_fill_threshold ffp afp d fv =
    env.calculate_bubble_fill_threshold ffp afp none fv

/-- When the collaborators never read the diagnostic sink, the `try` body
computes the same outcome whatever `save_path` it threads through. -/
lemma extract_body_savePath_irrel {Image Corners Grid : Type}
    (env : Env Image Corners Grid) (h : IgnoresSavePath env)
    (ip of_ : FilePath) (maf eag : Bool) (fv : FormVariant)
    (ts : Option Timestamp) (dbg : Option FilePath) :
    extract_body env ip of_ maf eag fv ts dbg =
    extract_body env ip of_ maf eag fv ts none := by
  cases hgi : env.get_image ip none with
  | error e =>
    have hgi' : env.get_image ip dbg = .error e := (h.get_image_eq ip dbg).trans hgi
    simp only [extract_body, hgi, hgi']
  | ok image =>
    have hgi' : env.get_image ip dbg = .ok image := (h.get_image_eq ip dbg).trans hgi
    cases hps : env.prepare_scan_for_processing image none with
    | error e =>
      have hps' : env.prepare_scan_for_processing image dbg = .error e :=
        (h.prepare_eq image dbg).trans hps
      simp only [extract_body, hgi, hgi', hps, hps']
    | ok prepared =>
      have hps' : env.prepare_scan_for_processing image dbg = .ok prepared :=
        (h.prepare_eq image dbg).trans hps
      cases hfc : env.find_corner_marks prepared none with
      | error e =>
        have hfc' : env.find_corner_marks prepared dbg = .error e :=
          (h.corners_eq prepared dbg).trans hfc
        cases e <;> simp only [extract_body, hgi, hgi', hps, hps', hfc, hfc']
      | ok corners =>
        have hfc' : env.find_corner_marks prepared dbg = .ok corners :=
          (h.corners_eq prepared dbg).trans hfc
        cases hdi : env.dilate prepared none with
        | error e =>
          have hdi' : env.dilate prepared dbg = .error e :=
            (h.dilate_eq prepared dbg).trans hdi
          simp only [extract_body, hgi, hgi', hps, hps', hfc, hfc', hdi, hdi']
        | ok morphed =>
          have hdi' : env.dilate prepared dbg = .ok morphed :=
            (h.dilate_eq prepared dbg).trans hdi
          cases hmg : env.mkGrid corners GRID_HORIZONTAL_CELLS
              GRID_VERTICAL_CELLS morphed none with
          | error e =>
            have hmg' : env.mkGrid corners GRID_HORIZONTAL_CELLS
                GRID_VERTICAL_CELLS morphed dbg = .error e :=
              (h.grid_eq corners GRID_HORIZONTAL_CELLS GRID_VERTICAL_CELLS
                morphed dbg).trans hmg
            simp only [extract_body, hgi, hgi', hps, hps', hfc, hfc', hdi,
              hdi', hmg, hmg']
          | ok grid =>
            have hmg' : env.mkGrid corners GRID_HORIZONTAL_CELLS
                GRID_VERTICAL_CELLS morphed dbg = .ok grid :=
              (h.grid_eq corners GRID_HORIZONTAL_CELLS GRID_VERTICAL_CELLS
                morphed dbg).trans hmg
            cases hffp : fieldFillPercents env grid fv with
            | error e =>
              simp only [extract_body, hgi, hgi', hps, hps', hfc, hfc', hdi,
                hdi', hmg, hmg', hffp]
            | ok ffp =>
              cases hafp : answerFillPercents env grid fv with
              | error e =>
                simp only [extract_body, hgi, hgi', hps, hps', hfc, hfc',
                  hdi, hdi', hmg, hmg', hffp, hafp]
              | ok afp =>
                cases hth : env.calculate_bubble_fill_threshold ffp afp none
                    fv with
                | error e =>
                  have hth' : env.calculate_bubble_fill_threshold ffp afp dbg
                      fv = .error e := (h.threshold_eq ffp afp dbg fv).trans hth
                  simp only [extract_body, hgi, hgi', hps, hps', hfc, hfc',
                    hdi, hdi', hmg, hmg', hffp, hafp, hth, hth']
                | ok threshold =>
                  have hth' : env.calculate_bubble_fill_threshold ffp afp dbg
                      fv = .ok threshold :=
                    (h.threshold_eq ffp afp dbg fv).trans hth
                  simp only [extract_body, hgi, hgi', hps, hps', hfc, hfc',
                    hdi, hdi', hmg, hmg', hffp, hafp, hth, hth']

/-- A complete decoded record for one sheet: both configured field columns,
the form variant's question count, and exactly one data row holding a value
for both fields and one answer string per question. -/
def CompleteRecord (fv : FormVariant) (ip : FilePath) (sheet : OutputSheet) :
    Prop :=
  sheet.field_columns = [Field.TEST_FORM_CODE, Field.IMAGE_FILE] ∧
  sheet.num_questions = fv.num_questions ∧
  ∃ form_code answers, answers.length = fv.num_questions ∧
    sheet.rows = [([(Field.TEST_FORM_CODE, form_code),
      (Field.IMAGE_FILE, ip.name)], answers)]

lemma readAnswers_ok_length {Image Corners Grid : Type}
    (env : Env Image Corners Grid) (grid : Grid) (maf : Bool) (t : Rat)
    (fv : FormVariant) (afp : List (List Rat)) (answers : List String)
    (h : readAnswers env grid maf t fv afp = .ok answers) :
    answers.length = fv.num_questions := by
  unfold readAnswers at h
  have := mapExc_ok_length _ _ _ h
  simpa using this

/- Concrete inputs and environments used by the witness theorems. -/

def ipW : FilePath := ⟨["scans", "sheet1.png"]⟩

def ofW : FilePath := ⟨["out"]⟩

def ts0 : Option Timestamp := some 42

/-- A form variant with a configured TEST_FORM_CODE field and two questions. -/
def fvW : FormVariant := ⟨[(Field.TEST_FORM_CODE, some ⟨0⟩)], [⟨1⟩, ⟨2⟩], 2⟩

/-- A form variant whose TEST_FORM_CODE field is configured as `None`. -/
def fvNoCode : FormVariant := ⟨[(Field.TEST_FORM_CODE, none)], [⟨1⟩, ⟨2⟩], 2⟩

def pW : FilePath := ofW.child "extracted_answer_key.csv"

/-- A well-behaved environment: every stage succeeds, question 0 decodes to
the empty answer, question 1 to the letter B, the form-code field to A, and
no collaborator reads its diagnostic sink. -/
def envW : Env Unit Unit Unit :=
  ⟨fun _ _ => .ok (), fun _ _ => .ok (), fun _ _ => .ok (),
   fun _ _ => .ok (), fun _ _ _ _ _ => .ok (),
   fun _ _ => .ok [10, 95, 5], fun _ _ _ _ => .ok 50,
   fun i _ _ _ _ _ => .ok (if i = 0 then "" else "B"),
   fun _ _ _ _ _ => .ok (some "A"),
   fun _ folder base _ _ => .ok (folder.child (base ++ ".csv"))⟩

lemma envW_ignores : IgnoresSavePath envW :=
  ⟨fun _ _ => rfl, fun _ _ => rfl, fun _ _ => rfl, fun _ _ => rfl,
   fun _ _ _ _ _ => rfl, fun _ _ _ _ => rfl⟩

/-- Like `envW` but corner finding raises `CornerFindingError`. -/
def envCF : Env Unit Unit Unit :=
  ⟨fun _ _ => .ok (), fun _ _ => .ok (),
   fun _ _ => .error (.cornerFinding "no corner marks found"),
   fun _ _ => .ok (), fun _ _ _ _ _ => .ok (),
   fun _ _ => .ok [10, 95, 5], fun _ _ _ _ => .ok 50,
   fun i _ _ _ _ _ => .ok (if i = 0 then "" else "B"),
   fun _ _ _ _ _ => .ok (some "A"),
   fun _ folder base _ _ => .ok (folder.child (base ++ ".csv"))⟩

/-- Like `envW` but loading the image raises an ordinary exception. -/
def envErr : Env Unit Unit Unit :=
  ⟨fun _ _ => .error (.other "cannot read image"), fun _ _ => .ok (),
   fun _ _ => .ok (), fun _ _ => .ok (), fun _ _ _ _ _ => .ok (),
   fun _ _ => .ok [10, 95, 5], fun _ _ _ _ => .ok 50,
   fun i _ _ _ _ _ => .ok (if i = 0 then "" else "B"),
   fun _ _ _ _ _ => .ok (some "A"),
   fun _ folder base _ _ => .ok (folder.child (base ++ ".csv"))⟩

/-- C1: a `CornerFindingError` is caught by the inner handler of
`extract_answer_key_from_image` and the sheet aborts with `None` even when
`debug_mode_on` is true: contrary to the claim, the error does not propagate
to the caller in diagnostic mode.  Concrete run with debug mode on. -/
theorem claim_C1_counterexample :
    extract_answer_key_from_image envCF ipW ofW false false fvW ts0 true =
      ⟨Except.ok none, none,
       ["Error finding corners in sheet1.png: no corner marks found"]⟩ := by
  rfl

/-- C1 (amended): whenever corner finding raises a corner-finding error on
the prepared image, `extract_answer_key_from_image` prints a message naming
the sheet and returns the failure indicator `None`, saving nothing - in
every mode, diagnostic (`debug_mode_on = true`) included; the error never
propagates to the caller. -/
theorem claim_C1_theorem {Image Corners Grid : Type}
    (env : Env Image Corners Grid) (ip of_ : FilePath) (maf eag : Bool)
    (fv : FormVariant) (ts : Option Timestamp) (dm : Bool)
    (image prepared : Image) (msg : String)
    (h1 : env.get_image ip (debugPathArg of_ ts ip dm) = .ok image)
    (h2 : env.prepare_scan_for_processing image (debugPathArg of_ ts ip dm) =
      .ok prepared)
    (h3 : env.find_corner_marks prepared (debugPathArg of_ ts ip dm) =
      .error (.cornerFinding msg)) :
    extract_answer_key_from_image env ip of_ maf eag fv ts dm =
      ⟨Except.ok none, none,
       ["Error finding corners in " ++ ip.name ++ ": " ++ msg]⟩ := by
  simp only [extract_answer_key_from_image, extract_body, h1, h2, h3]

theorem claim_C1_witness :
    (envCF.get_image ipW (debugPathArg ofW ts0 ipW true) = .ok () ∧
     envCF.prepare_scan_for_processing () (debugPathArg ofW ts0 ipW true) =
       .ok () ∧
     envCF.find_corner_marks () (debugPathArg ofW ts0 ipW true) =
       .error (.cornerFinding "no corner marks found")) ∧
    extract_answer_key_from_image envCF ipW ofW false false fvW ts0 true =
      ⟨Except.ok none, none,
       ["Error finding corners in " ++ ipW.name ++ ": " ++
        "no corner marks found"]⟩ :=
  ⟨⟨rfl, rfl, rfl⟩,
   claim_C1_theorem envCF ipW ofW false false fvW ts0 true () ()
     "no corner marks found" rfl rfl rfl⟩

/-- C5: any exception that escapes the `try` body is caught at the per-sheet
boundary: a message identifying the source sheet is printed, nothing is
saved, and the call returns the failure indicator `None` when diagnostic
mode is off but re-raises the same exception when diagnostic mode is on. -/
theorem claim_C5_theorem {Image Corners Grid : Type}
    (env : Env Image Corners Grid) (ip of_ : FilePath) (maf eag : Bool)
    (fv : FormVariant) (ts : Option Timestamp) (dm : Bool) (e : Exc)
    (h : extract_body env ip of_ maf eag fv ts (debugPathArg of_ ts ip dm) =
      .error e) :
    extract_answer_key_from_image env ip of_ maf eag fv ts dm =
      ⟨if dm then Except.error e else Except.ok none, none,
       ["Error extracting answer key from " ++ ip.name ++ ": " ++
        e.message]⟩ := by
  simp only [extract_answer_key_from_image, h]
  cases dm <;> simp

theorem claim_C5_witness :
    (extract_body envErr ipW ofW false true fvW ts0
       (debugPathArg ofW ts0 ipW false) = .error (.other "cannot read image")) ∧
    extract_answer_key_from_image envErr ipW ofW false true fvW ts0 false =
      ⟨if false then Except.error (.other "cannot read image")
       else Except.ok none, none,
       ["Error extracting answer key from " ++ ipW.name ++ ": " ++
        (Exc.other "cannot read image").message]⟩ :=
  ⟨rfl, claim_C5_theorem envErr ipW ofW false true fvW ts0 false
    (.other "cannot read image") rfl⟩

/-- C6: `extract_answer_key_from_image` keeps no hidden state across runs -
two calls on the identical environment, image and configuration produce the
same outcome (result, saved record and messages). -/
theorem claim_C6_theorem {Image Corners Grid : Type}
    (env : Env Image Corners Grid) (ip of_ : FilePath) (maf eag : Bool)
    (fv : FormVariant) (ts : Option Timestamp) (dm : Bool)
    (r1 r2 : ExtractOutcome)
    (h1 : extract_answer_key_from_image env ip of_ maf eag fv ts dm = r1)
    (h2 : extract_answer_key_from_image env ip of_ maf eag fv ts dm = r2) :
    r1 = r2 :=
  h1.symm.trans h2

theorem claim_C6_witness :
    extract_answer_key_from_image envW ipW ofW false true fvW ts0 false =
    extract_answer_key_from_image envW ipW ofW false true fvW ts0 false :=
  claim_C6_theorem envW ipW ofW false true fvW ts0 false _ _ rfl rfl

/-- C9: the GUI wrapper returns exactly the value of
`extract_answer_key_from_image` on the same arguments, whatever progress
tracker (if any) is supplied. -/
theorem claim_C9_theorem {Image Corners Grid : Type}
    (env : Env Image Corners Grid) (ip of_ : FilePath) (maf eag : Bool)
    (fv : FormVariant) (ts : Option Timestamp) (pt : Option Unit)
    (dm : Bool) :
    extract_answer_key_from_image_gui env ip of_ maf eag fv ts pt dm =
    extract_answer_key_from_image env ip of_ maf eag fv ts dm :=
  rfl

/-- C2: when no collaborator reads its diagnostic sink, running with debug
capture active produces the same observable outcome as running without it,
whenever both runs succeed: same saved record, same returned path. -/
theorem claim_C2_theorem {Image Corners Grid : Type}
    (env : Env Image Corners Grid) (ip of_ : FilePath) (maf eag : Bool)
    (fv : FormVariant) (ts : Option Timestamp)
    (h : IgnoresSavePath env) (p1 p2 : FilePath)
    (h1 : (extract_answer_key_from_image env ip of_ maf eag fv ts
      false).result = Except.ok (some p1))
    (h2 : (extract_answer_key_from_image env ip of_ maf eag fv ts
      true).result = Except.ok (some p2)) :
    extract_answer_key_from_image env ip of_ maf eag fv ts true =
      extract_answer_key_from_image env ip of_ maf eag fv ts false ∧
    p1 = p2 ∧
    (extract_answer_key_from_image env ip of_ maf eag fv ts true).saved =
      (extract_answer_key_from_image env ip of_ maf eag fv ts false).saved := by
  obtain ⟨sheet, m, hbody, hout⟩ :=
    extract_ok_some_inv env ip of_ maf eag fv ts false p1 h1
  have hb := extract_body_savePath_irrel env h ip of_ maf eag fv ts
    (debugPathArg of_ ts ip true)
  have hbody' : extract_body env ip of_ maf eag fv ts
      (debugPathArg of_ ts ip true) = .ok (.saved p1 sheet m) := hb.trans hbody
  have heq : extract_answer_key_from_image env ip of_ maf eag fv ts true =
      extract_answer_key_from_image env ip of_ maf eag fv ts false := by
    rw [hout]
    simp only [extract_answer_key_from_image, hbody']
  refine ⟨heq, ?_, by rw [heq]⟩
  rw [heq] at h2
  have := h1.symm.trans h2
  simpa using this

theorem claim_C2_witness :
    (IgnoresSavePath envW ∧
     (extract_answer_key_from_image envW ipW ofW false true fvW ts0
       false).result = Except.ok (some pW) ∧
     (extract_answer_key_from_image envW ipW ofW false true fvW ts0
       true).result = Except.ok (some pW)) ∧
    (extract_answer_key_from_image envW ipW ofW false true fvW ts0 true =
       extract_answer_key_from_image envW ipW ofW false true fvW ts0 false ∧
     pW = pW ∧
     (extract_answer_key_from_image envW ipW ofW false true fvW ts0
       true).saved =
     (extract_answer_key_from_image envW ipW ofW false true fvW ts0
       false).saved) :=
  ⟨⟨envW_ignores, rfl, rfl⟩,
   claim_C2_theorem envW ipW ofW false true fvW ts0 envW_ignores pW pW rfl
     rfl⟩

/-- C3: every call either succeeds with a complete decoded record (both
field columns, one data row with both field values and one answer per
question), or returns `None` having saved nothing, or (only possible in
diagnostic mode) re-raises having saved nothing - never a partial record. -/
theorem claim_C3_theorem {Image Corners Grid : Type}
    (env : Env Image Corners Grid) (ip of_ : FilePath) (maf eag : Bool)
    (fv : FormVariant) (ts : Option Timestamp) (dm : Bool) :
    (∃ p sheet,
      (extract_answer_key_from_image env ip of_ maf eag fv ts dm).result =
        Except.ok (some p) ∧
      (extract_answer_key_from_image env ip of_ maf eag fv ts dm).saved =
        some sheet ∧
      CompleteRecord fv ip sheet) ∨
    ((extract_answer_key_from_image env ip of_ maf eag fv ts dm).result =
        Except.ok none ∧
     (extract_answer_key_from_image env ip of_ maf eag fv ts dm).saved =
        none) ∨
    (∃ e,
      (extract_answer_key_from_image env ip of_ maf eag fv ts dm).result =
        Except.error e ∧
      (extract_answer_key_from_image env ip of_ maf eag fv ts dm).saved =
        none) := by
  cases hbody : extract_body env ip of_ maf eag fv ts
      (debugPathArg of_ ts ip dm) with
  | error e =>
    cases dm with
    | false =>
      right; left
      simp [extract_answer_key_from_image, hbody]
    | true =>
      right; right
      exact ⟨e, by simp [extract_answer_key_from_image, hbody]⟩
  | ok bo =>
    cases bo with
    | cornerFailed m =>
      right; left
      simp [extract_answer_key_from_image, hbody]
    | saved p sheet m =>
      left
      obtain ⟨image, prepared, corners, morphed, grid, ffp, afp, threshold,
        answers, form_code, e1, e2, e3, e4, e5, e6, e7, e8, e9, e10, hsheet,
        e11, hm⟩ := extract_body_saved_inv env ip of_ maf eag fv ts _ p sheet
          m hbody
      refine ⟨p, sheet, ?_, ?_, ?_, ?_, ?_⟩
      · simp [extract_answer_key_from_image, hbody]
      · simp [extract_answer_key_from_image, hbody]
      · rw [hsheet]; rfl
      · rw [hsheet]; rfl
      · refine ⟨form_code, answers.map
          (fun a => if a = "" then (if eag then "G" else "") else a), ?_, ?_⟩
        · rw [List.length_map]
          exact readAnswers_ok_length env grid maf threshold fv afp answers e9
        · rw [hsheet]
          simp [OutputSheet.new, OutputSheet.add, OutputSheet.clean_up]

/-- The stage chain of one successful sheet: every pipeline stage ran, in
data-flow order - corner location on the prepared image, grid construction
from the corners, fill measurement for every configured field and question,
threshold calibration over the pooled population, decoding per question and
field with that threshold, record assembly, save. -/
def StagePipelineRun {Image Corners Grid : Type}
    (env : Env Image Corners Grid) (ip of_ : FilePath) (maf eag : Bool)
    (fv : FormVariant) (ts : Option Timestamp) (dbg : Option FilePath)
    (p : FilePath) (sheet : OutputSheet) : Prop :=
  ∃ (image prepared : Image) (corners : Corners) (morphed : Image)
    (grid : Grid) (ffp : List (Field × List Rat)) (afp : List (List Rat))
    (threshold : Rat) (answers : List String) (form_code : String),
    env.get_image ip dbg = .ok image ∧
    env.prepare_scan_for_processing image dbg = .ok prepared ∧
    env.find_corner_marks prepared dbg = .ok corners ∧
    env.dilate prepared dbg = .ok morphed ∧
    env.mkGrid corners GRID_HORIZONTAL_CELLS GRID_VERTICAL_CELLS morphed
      dbg = .ok grid ∧
    fieldFillPercents env grid fv = .ok ffp ∧
    answerFillPercents env grid fv = .ok afp ∧
    env.calculate_bubble_fill_threshold ffp afp dbg fv = .ok threshold ∧
    readAnswers env grid maf threshold fv afp = .ok answers ∧
    readFormCode env grid threshold fv ffp = .ok form_code ∧
    sheet = ((OutputSheet.new [Field.TEST_FORM_CODE, Field.IMAGE_FILE]
        fv.num_questions).add
        [(Field.TEST_FORM_CODE, form_code), (Field.IMAGE_FILE, ip.name)]
        answers).clean_up (if eag then "G" else "") ∧
    env.save sheet of_ "extracted_answer_key" false ts = .ok p

/-- C4: every successful run went through the pipeline stages in source
order, each stage consuming the previous stage's output, ending in the
assembly and save of the structured record. -/
theorem claim_C4_theorem {Image Corners Grid : Type}
    (env : Env Image Corners Grid) (ip of_ : FilePath) (maf eag : Bool)
    (fv : FormVariant) (ts : Option Timestamp) (dm : Bool) (p : FilePath)
    (h : (extract_answer_key_from_image env ip of_ maf eag fv ts dm).result =
      Except.ok (some p)) :
    ∃ sheet,
      (extract_answer_key_from_image env ip of_ maf eag fv ts dm).saved =
        some sheet ∧
      StagePipelineRun env ip of_ maf eag fv ts (debugPathArg of_ ts ip dm)
        p sheet := by
  obtain ⟨sheet, m, hbody, hout⟩ :=
    extract_ok_some_inv env ip of_ maf eag fv ts dm p h
  obtain ⟨image, prepared, corners, morphed, grid, ffp, afp, threshold,
    answers, form_code, e1, e2, e3, e4, e5, e6, e7, e8, e9, e10, hsheet, e11,
    hm⟩ := extract_body_saved_inv env ip of_ maf eag fv ts _ p sheet m hbody
  exact ⟨sheet, by rw [hout], image, prepared, corners, morphed, grid, ffp,
    afp, threshold, answers, form_code, e1, e2, e3, e4, e5, e6, e7, e8, e9,
    e10, hsheet, e11⟩

theorem claim_C4_witness :
    (extract_answer_key_from_image envW ipW ofW false true fvW ts0
      false).result = Except.ok (some pW) ∧
    (∃ sheet,
      (extract_answer_key_from_image envW ipW ofW false true fvW ts0
        false).saved = some sheet ∧
      StagePipelineRun envW ipW ofW false true fvW ts0
        (debugPathArg ofW ts0 ipW false) pW sheet) :=
  ⟨rfl, claim_C4_theorem envW ipW ofW false true fvW ts0 false pW rfl⟩

/-- The single-threshold decoding property of one saved sheet: one scalar
threshold was calibrated from this sheet's pooled field and answer fill
percents, and that same scalar was handed to the decoder for every question
and for the form-code field of the record that was saved. -/
def SingleThresholdDecoding {Image Corners Grid : Type}
    (env : Env Image Corners Grid) (ip : FilePath) (maf eag : Bool)
    (fv : FormVariant) (dbg : Option FilePath) (sheet : OutputSheet) : Prop :=
  ∃ (grid : Grid) (ffp : List (Field × List Rat)) (afp : List (List Rat))
    (threshold : Rat) (answers : List String) (form_code : String),
    fieldFillPercents env grid fv = .ok ffp ∧
    answerFillPercents env grid fv = .ok afp ∧
    env.calculate_bubble_fill_threshold ffp afp dbg fv = .ok threshold ∧
    readAnswers env grid maf threshold fv afp = .ok answers ∧
    readFormCode env grid threshold fv ffp = .ok form_code ∧
    sheet = ((OutputSheet.new [Field.TEST_FORM_CODE, Field.IMAGE_FILE]
        fv.num_questions).add
        [(Field.TEST_FORM_CODE, form_code), (Field.IMAGE_FILE, ip.name)]
        answers).clean_up (if eag then "G" else "")

/-- C8: on every successful call the bubble-fill threshold is a single
scalar calibrated within that call from the sheet's own pooled fill
percents, and every answer and the form-code field of the saved record were
decoded against that same scalar.  (`extract_answer_key_from_image` is a
pure function of its arguments: no threshold outlives a call.) -/
theorem claim_C8_theorem {Image Corners Grid : Type}
    (env : Env Image Corners Grid) (ip of_ : FilePath) (maf eag : Bool)
    (fv : FormVariant) (ts : Option Timestamp) (dm : Bool) (p : FilePath)
    (h : (extract_answer_key_from_image env ip of_ maf eag fv ts dm).result =
      Except.ok (some p)) :
    ∃ sheet,
      (extract_answer_key_from_image env ip of_ maf eag fv ts dm).saved =
        some sheet ∧
      SingleThresholdDecoding env ip maf eag fv (debugPathArg of_ ts ip dm)
        sheet := by
  obtain ⟨sheet, m, hbody, hout⟩ :=
    extract_ok_some_inv env ip of_ maf eag fv ts dm p h
  obtain ⟨image, prepared, corners, morphed, grid, ffp, afp, threshold,
    answers, form_code, e1, e2, e3, e4, e5, e6, e7, e8, e9, e10, hsheet, e11,
    hm⟩ := extract_body_saved_inv env ip of_ maf eag fv ts _ p sheet m hbody
  exact ⟨sheet, by rw [hout], grid, ffp, afp, threshold, answers, form_code,
    e6, e7, e8, e9, e10, hsheet⟩

theorem claim_C8_witness :
    (extract_answer_key_from_image envW ipW ofW false true fvW ts0
      false).result = Except.ok (some pW) ∧
    (∃ sheet,
      (extract_answer_key_from_image envW ipW ofW false true fvW ts0
        false).saved = some sheet ∧
      SingleThresholdDecoding envW ipW false true fvW
        (debugPathArg ofW ts0 ipW false) sheet) :=
  ⟨rfl, claim_C8_theorem envW ipW ofW false true fvW ts0 false pW rfl⟩

/-- The empty-answer display policy as applied to one saved sheet: the saved
row holds the decoded answers with every empty answer replaced by "G" when
`empty_answers_as_g` is true and by the empty string when it is false. -/
def EmptyAnswerPolicyApplied {Image Corners Grid : Type}
    (env : Env Image Corners Grid) (ip : FilePath) (maf eag : Bool)
    (fv : FormVariant) (sheet : OutputSheet) : Prop :=
  ∃ (grid : Grid) (threshold : Rat) (afp : List (List Rat))
    (answers : List String) (form_code : String),
    readAnswers env grid maf threshold fv afp = .ok answers ∧
    sheet.rows = [([(Field.TEST_FORM_CODE, form_code),
      (Field.IMAGE_FILE, ip.name)],
      answers.map (fun a => if a = "" then (if eag then "G" else "") else a))]

/-- C7: the empty-answer display of every saved sheet is decided by the
caller-owned `empty_answers_as_g` flag: each question whose decoded answer
is empty is written as "G" when the flag is true and as the empty string
when it is false; non-empty answers are written unchanged. -/
theorem claim_C7_theorem {Image Corners Grid : Type}
    (env : Env Image Corners Grid) (ip of_ : FilePath) (maf eag : Bool)
    (fv : FormVariant) (ts : Option Timestamp) (dm : Bool) (p : FilePath)
    (h : (extract_answer_key_from_image env ip of_ maf eag fv ts dm).result =
      Except.ok (some p)) :
    ∃ sheet,
      (extract_answer_key_from_image env ip of_ maf eag fv ts dm).saved =
        some sheet ∧
      EmptyAnswerPolicyApplied env ip maf eag fv sheet := by
  obtain ⟨sheet, m, hbody, hout⟩ :=
    extract_ok_some_inv env ip of_ maf eag fv ts dm p h
  obtain ⟨image, prepared, corners, morphed, grid, ffp, afp, threshold,
    answers, form_code, e1, e2, e3, e4, e5, e6, e7, e8, e9, e10, hsheet, e11,
    hm⟩ := extract_body_saved_inv env ip of_ maf eag fv ts _ p sheet m hbody
  refine ⟨sheet, by rw [hout], grid, threshold, afp, answers, form_code, e9,
    ?_⟩
  rw [hsheet]
  simp [OutputSheet.new, OutputSheet.add, OutputSheet.clean_up]

theorem claim_C7_witness :
    (extract_answer_key_from_image envW ipW ofW false true fvW ts0
      false).result = Except.ok (some pW) ∧
    (∃ sheet,
      (extract_answer_key_from_image envW ipW ofW false true fvW ts0
        false).saved = some sheet ∧
      EmptyAnswerPolicyApplied envW ipW false true fvW sheet) :=
  ⟨rfl, claim_C7_theorem envW ipW ofW false true fvW ts0 false pW rfl⟩

/-- C10: when the form variant has no TEST_FORM_CODE group among the
measured fields, or reading that field yields a falsy value (`None` or the
empty string), and every other stage succeeds, the call still succeeds: the
form code is recorded as the empty string and the saved record is complete. -/
theorem claim_C10_theorem {Image Corners Grid : Type}
    (env : Env Image Corners Grid) (ip of_ : FilePath) (maf eag : Bool)
    (fv : FormVariant) (ts : Option Timestamp) (dm : Bool)
    (image prepared : Image) (corners : Corners) (morphed : Image)
    (grid : Grid) (ffp : List (Field × List Rat)) (afp : List (List Rat))
    (threshold : Rat) (answers : List String) (p : FilePath)
    (h1 : env.get_image ip (debugPathArg of_ ts ip dm) = .ok image)
    (h2 : env.prepare_scan_for_processing image (debugPathArg of_ ts ip dm) =
      .ok prepared)
    (h3 : env.find_corner_marks prepared (debugPathArg of_ ts ip dm) =
      .ok corners)
    (h4 : env.dilate prepared (debugPathArg of_ ts ip dm) = .ok morphed)
    (h5 : env.mkGrid corners GRID_HORIZONTAL_CELLS GRID_VERTICAL_CELLS
      morphed (debugPathArg of_ ts ip dm) = .ok grid)
    (h6 : fieldFillPercents env grid fv = .ok ffp)
    (h7 : answerFillPercents env grid fv = .ok afp)
    (h8 : env.calculate_bubble_fill_threshold ffp afp
      (debugPathArg of_ ts ip dm) fv = .ok threshold)
    (h9 : readAnswers env grid maf threshold fv afp = .ok answers)
    (h10 : lookupField Field.TEST_FORM_CODE ffp = none ∨
      ∃ fps, lookupField Field.TEST_FORM_CODE ffp = some fps ∧
        (env.read_field_as_string Field.TEST_FORM_CODE grid threshold fv
           fps = .ok none ∨
         env.read_field_as_string Field.TEST_FORM_CODE grid threshold fv
           fps = .ok (some "")))
    (h11 : env.save (((OutputSheet.new
        [Field.TEST_FORM_CODE, Field.IMAGE_FILE] fv.num_questions).add
        [(Field.TEST_FORM_CODE, ""), (Field.IMAGE_FILE, ip.name)]
        answers).clean_up (if eag then "G" else "")) of_
        "extracted_answer_key" false ts = .ok p) :
    extract_answer_key_from_image env ip of_ maf eag fv ts dm =
      ⟨Except.ok (some p),
       some (((OutputSheet.new [Field.TEST_FORM_CODE, Field.IMAGE_FILE]
         fv.num_questions).add
         [(Field.TEST_FORM_CODE, ""), (Field.IMAGE_FILE, ip.name)]
         answers).clean_up (if eag then "G" else "")),
       ["Answer key extracted from " ++ ip.name ++ " and saved to " ++
        p.name]⟩ ∧
    CompleteRecord fv ip (((OutputSheet.new
      [Field.TEST_FORM_CODE, Field.IMAGE_FILE] fv.num_questions).add
      [(Field.TEST_FORM_CODE, ""), (Field.IMAGE_FILE, ip.name)]
      answers).clean_up (if eag then "G" else "")) := by
  have hfc : readFormCode env grid threshold fv ffp = .ok "" := by
    rcases h10 with h10 | ⟨fps, hl, hr | hr⟩
    · simp only [readFormCode, h10]
    · simp only [readFormCode, hl, hr]
    · simp [readFormCode, hl, hr]
  constructor
  · simp only [extract_answer_key_from_image, extract_body, h1, h2, h3, h4,
      h5, h6, h7, h8, h9, hfc, h11]
  · refine ⟨rfl, rfl, "", answers.map
      (fun a => if a = "" then (if eag then "G" else "") else a), ?_, ?_⟩
    · rw [List.length_map]
      exact readAnswers_ok_length env grid maf threshold fv afp answers h9
    · simp [OutputSheet.new, OutputSheet.add, OutputSheet.clean_up]

theorem claim_C10_witness :
    (envW.get_image ipW (debugPathArg ofW ts0 ipW false) = .ok () ∧
     fieldFillPercents envW () fvNoCode = .ok [] ∧
     lookupField Field.TEST_FORM_CODE [] = none ∧
     readAnswers envW () false 50 fvNoCode [[10, 95, 5], [10, 95, 5]] =
       .ok ["", "B"]) ∧
    (extract_answer_key_from_image envW ipW ofW false true fvNoCode ts0
        false =
      ⟨Except.ok (some pW),
       some (((OutputSheet.new [Field.TEST_FORM_CODE, Field.IMAGE_FILE]
         fvNoCode.num_questions).add
         [(Field.TEST_FORM_CODE, ""), (Field.IMAGE_FILE, ipW.name)]
         ["", "B"]).clean_up (if true then "G" else "")),
       ["Answer key extracted from " ++ ipW.name ++ " and saved to " ++
        pW.name]⟩ ∧
     CompleteRecord fvNoCode ipW (((OutputSheet.new
       [Field.TEST_FORM_CODE, Field.IMAGE_FILE]
       fvNoCode.num_questions).add
       [(Field.TEST_FORM_CODE, ""), (Field.IMAGE_FILE, ipW.name)]
       ["", "B"]).clean_up (if true then "G" else ""))) :=
  ⟨⟨rfl, rfl, rfl, rfl⟩,
   claim_C10_theorem envW ipW ofW false true fvNoCode ts0 false () () () ()
     () [] [[10, 95, 5], [10, 95, 5]] 50 ["", "B"] pW rfl rfl rfl rfl rfl
     rfl rfl rfl rfl (Or.inl rfl) rfl⟩

end OpenMCR
